import Mathlib

/-!
Verification of the Remote-Control repository's natural-language specification
against a shallow embedding of its source code.

The embedding covers:
* the diff/reconciliation engine (`monitorClaudeResponse` in the client script,
  src/unnamed/part_003, lines 641-754): raw change notifications carrying the
  full cumulative content plus a streaming flag are turned into state-change
  and content events;
* the relay server, third revision in src/src/server.ts (lines 419-653):
  payload validation, the WebSocket message handler with its
  broadcast-excluding-sender loop, and the /api/send-message endpoint;
* the journal, first revision in src/src/server.ts (lines 102-146):
  `formatLogEntry` and the file-based `updateLogEntry` upsert;
* the session registry: the `clients` map keyed by the client-supplied
  sec-websocket-key header (src/src/server.ts lines 522-544);
* the dictation segmentation engine
  (`processCurrentTranscriptionSection` in CluadescribeCli/main.swift,
  lines 329-363).

Machine integers do not occur on the verified paths; message identifiers are
modelled as naturals minted from a counter (the source uses
`Date.now().toString()`, an opaque fresh string).
-/

namespace RemoteControl

/- ===================================================================
   Diff/reconciliation engine
   (src/unnamed/part_003, `monitorClaudeResponse`, lines 641-754)
   =================================================================== -/

/-- Generation state carried by a state-change event
(`state: "generating" | "finished"` in the source). -/
inductive GenState
  | generating
  | finished
deriving Repr, DecidableEq

/-- An envelope emitted by the engine (`sendToServer` calls):
either a `CLAUDE.STATE_CHANGE` or a `CLAUDE.RESPONSE_PART_RECEIVED`.
The `messageId` is `currentMessageId` at emission time, which is null
outside a generation. -/
inductive Event
  | stateChange (st : GenState) (messageId : Option Nat)
  | contentPart (content : String) (messageId : Option Nat)
deriving Repr, DecidableEq

/-- One raw change notification from the document change source: the full
current cumulative `content` (the joined text of all response paragraphs)
and the `data-is-streaming` flag. -/
structure Notif where
  content : String
  isStreaming : Bool
deriving Repr, DecidableEq

/-- Mutable state of `monitorClaudeResponse`: `currentMessageId` and
`lastContent` are the source's closure variables; `nextId` models the
minting of fresh message identifiers (`Date.now().toString()` in the
source, abstracted as a counter so that minted identifiers are fresh). -/
structure EngineState where
  currentMessageId : Option Nat
  lastContent : String
  nextId : Nat
deriving Repr, DecidableEq

/-- Initial engine state: `currentMessageId = null`, `lastContent = ""`. -/
def initE : EngineState := ⟨none, "", 0⟩

/-- State-transition half of a notification (part_003 lines 687-715):
`if (isStreaming && !currentMessageId)` mint an id and emit `generating`;
`else if (!isStreaming && currentMessageId)` emit `finished` with the
current id and clear it. -/
def stateStep (s : EngineState) (n : Notif) : EngineState × List Event :=
  if n.isStreaming && s.currentMessageId.isNone then
    ({ s with currentMessageId := some s.nextId, nextId := s.nextId + 1 },
     [Event.stateChange GenState.generating (some s.nextId)])
  else if !n.isStreaming && s.currentMessageId.isSome then
    ({ s with currentMessageId := none },
     [Event.stateChange GenState.finished s.currentMessageId])
  else (s, [])

/-- Content half of a notification (part_003 lines 717-745, the
`contentObserver` callback): if the full cumulative content differs from
`lastContent`, emit a content event carrying the ENTIRE cumulative content
tagged with the current message id, and update `lastContent`. -/
def contentStep (s : EngineState) (c : String) : EngineState × List Event :=
  if c != s.lastContent then
    ({ s with lastContent := c }, [Event.contentPart c s.currentMessageId])
  else (s, [])

/-- Processing of one raw notification: the outer observer's state logic
runs first, then the content observer sees the updated `currentMessageId`. -/
def engineStep (s : EngineState) (n : Notif) : EngineState × List Event :=
  ((contentStep (stateStep s n).1 n.content).1,
   (stateStep s n).2 ++ (contentStep (stateStep s n).1 n.content).2)

/-- Processing of a sequence of raw notifications, concatenating the
emitted events in order. -/
def engineRun (s : EngineState) : List Notif → EngineState × List Event
  | [] => (s, [])
  | n :: rest =>
    ((engineRun (engineStep s n).1 rest).1,
     (engineStep s n).2 ++ (engineRun (engineStep s n).1 rest).2)

/-- Payloads of the content events of an event stream, in order. -/
def contentPayloads : List Event → List String
  | [] => []
  | Event.contentPart c _ :: es => c :: contentPayloads es
  | Event.stateChange _ _ :: es => contentPayloads es

/-- Well-bracketing checker for an event stream: given the currently active
correlation id, a `generating` event is legal only when none is active and
activates its id; a `finished` event is legal only when an id is active and
must carry exactly that id, clearing it; content events change nothing.
Returns the resulting active id, or `none` on a violation. -/
def wbRun : Option Nat → List Event → Option (Option Nat)
  | a, [] => some a
  | none, Event.stateChange GenState.generating (some i) :: es => wbRun (some i) es
  | some i, Event.stateChange GenState.finished (some j) :: es =>
      if i = j then wbRun none es else none
  | a, Event.contentPart _ _ :: es => wbRun a es
  | _, _ => none

/-- Adjacent elements of the list are pairwise distinct. -/
def adjacentDistinct : List String → Bool
  | x :: y :: t => (x != y) && adjacentDistinct (y :: t)
  | _ => true

/-- Each element differs from its predecessor, starting from `c`. -/
def chainOk : String → List String → Bool
  | _, [] => true
  | c, x :: xs => (x != c) && chainOk x xs

/- ===================================================================
   Relay server, third revision (src/src/server.ts lines 419-653)
   =================================================================== -/

/-- Parsed JSON values arriving at the server (the result of `JSON.parse`). -/
inductive Json
  | null
  | bool (b : Bool)
  | num (n : Int)
  | str (s : String)
  | arr (elems : List Json)
  | obj (fields : List (String × Json))

/-- Field lookup on a JSON object (first binding wins, as in a JS object). -/
def Json.getField : Json → String → Option Json
  | Json.obj fs, key => (fs.find? (fun kv => kv.1 == key)).map (fun kv => kv.2)
  | _, _ => none

/-- Field lookup returning a string, `none` when absent or not a string. -/
def Json.getStr (j : Json) (key : String) : Option String :=
  match j.getField key with
  | some (Json.str s) => some s
  | _ => none

/-- Whether `sep` is a prefix of `l`. -/
def isPrefixChars : List Char → List Char → Bool
  | [], _ => true
  | _ :: _, [] => false
  | a :: as, b :: bs => a == b && isPrefixChars as bs

/-- Splitting a character list on the leftmost non-overlapping occurrences
of a non-empty separator, accumulating the current piece in reverse; the
fuel argument (always at least the list length plus one at the top-level
call) makes the recursion structural. -/
def splitCharsFuel (sep : List Char) : Nat → List Char → List Char → List (List Char)
  | 0, l, acc => [acc.reverse ++ l]
  | _ + 1, [], acc => [acc.reverse]
  | fuel + 1, c :: rest, acc =>
    if isPrefixChars sep (c :: rest) then
      acc.reverse :: splitCharsFuel sep fuel ((c :: rest).drop sep.length) []
    else splitCharsFuel sep fuel rest (c :: acc)

/-- Splitting a character list on a non-empty separator. -/
def splitChars (sep l : List Char) : List (List Char) :=
  splitCharsFuel sep (l.length + 1) l []

/-- JavaScript `String.prototype.split` / Swift `components(separatedBy:)`
for a non-empty separator: the pieces between the leftmost non-overlapping
occurrences of `sep` in `s` (one piece, the whole string, when `sep` does
not occur). -/
def jsSplit (s sep : String) : List String :=
  (splitChars sep.data s.data).map String.mk

/-- Swift `lowercased()` / JS `toLowerCase()` restricted to ASCII. -/
def jsToLower (s : String) : String :=
  String.mk (s.data.map Char.toLower)

/-- Swift `trimmingCharacters(in: .whitespacesAndNewlines)`: drop leading
and trailing whitespace. -/
def swiftTrim (s : String) : String :=
  String.mk (((s.data.dropWhile Char.isWhitespace).reverse.dropWhile Char.isWhitespace).reverse)

/-- JavaScript `String.prototype.includes` (`entry.includes(...)`, Swift
`contains`): true when `pat` occurs as a substring of `s`. -/
def strIncludes (s pat : String) : Bool :=
  pat == "" || (jsSplit s pat).length != 1

/-- Abstraction of zod's `z.string().url()` check: the string has a
non-empty scheme followed by `://`. No claim depends on its exact
boundary. -/
def looksLikeUrl (s : String) : Bool :=
  match jsSplit s "://" with
  | scheme :: _ :: _ => scheme != ""
  | _ => false

/-- A payload that validated against `PayloadSchema` (third revision):
one of the six `CLAUDE.*` message types with its required fields. -/
inductive PayloadV3
  | stateChange (state : GenState) (messageId timestamp url : String)
  | responsePartReceived (content messageId timestamp url : String)
  | responseComplete (content messageId timestamp url : String)
  | sendUserMessage (content : String)
  | setCurrentInput (content : String)
  | submitCurrentInput
deriving Repr

/-- Embedding of `PayloadSchema.parse` (third revision, lines 510-517):
the `type` discriminant must be one of the six `CLAUDE.*` literals and the
required fields for that type must be strings (with the state enum and url
checks); unknown extra fields are ignored. `none` models a `ZodError`. -/
def validatePayload (j : Json) : Option PayloadV3 :=
  match j.getStr "type" with
  | some "CLAUDE.STATE_CHANGE" =>
    match j.getStr "state", j.getStr "messageId", j.getStr "timestamp", j.getStr "url" with
    | some st, some mid, some ts, some url =>
      if looksLikeUrl url then
        if st == "generating" then some (PayloadV3.stateChange GenState.generating mid ts url)
        else if st == "finished" then some (PayloadV3.stateChange GenState.finished mid ts url)
        else none
      else none
    | _, _, _, _ => none
  | some "CLAUDE.RESPONSE_PART_RECEIVED" =>
    match j.getStr "content", j.getStr "messageId", j.getStr "timestamp", j.getStr "url" with
    | some c, some mid, some ts, some url =>
      if looksLikeUrl url then some (PayloadV3.responsePartReceived c mid ts url) else none
    | _, _, _, _ => none
  | some "CLAUDE.RESPONSE_COMPLETE" =>
    match j.getStr "content", j.getStr "messageId", j.getStr "timestamp", j.getStr "url" with
    | some c, some mid, some ts, some url =>
      if looksLikeUrl url then some (PayloadV3.responseComplete c mid ts url) else none
    | _, _, _, _ => none
  | some "CLAUDE.SEND_USER_MESSAGE" =>
    (j.getStr "content").map PayloadV3.sendUserMessage
  | some "CLAUDE.SET_CURRENT_INPUT" =>
    (j.getStr "content").map PayloadV3.setCurrentInput
  | some "CLAUDE.SUBMIT_CURRENT_INPUT" => some PayloadV3.submitCurrentInput
  | _ => none

/-- Observable effect of handling one inbound frame: the `(recipient id,
forwarded frame)` pairs pushed by the broadcast loop, the journal writes,
and whether an error reply was sent back to the sender. -/
structure HandlerResult where
  sends : List (String × Json)
  journalWrites : List String
  errorReplyToSender : Bool

/-- Third revision's `updateLogEntry` (lines 614-623): per the source
comment, "This function is currently a no-op" — it only logs, so no
journal write is produced. -/
def updateLogEntryV3 (_clientId : String) (_payload : PayloadV3) : List String := []

/-- Embedding of `processWebSocketMessage` (third revision, lines 547-586).
The connected clients are `(sessionId, readyState is OPEN)` pairs in map
iteration (insertion) order. A validated payload is forwarded (as the raw
frame, `JSON.stringify(data)`) to every OPEN client other than the sender;
a `ZodError` is caught and logged, producing no sends and no journal
writes. -/
def processWebSocketMessage (clientId : String) (data : Json)
    (clients : List (String × Bool)) : HandlerResult :=
  match validatePayload data with
  | none => { sends := [], journalWrites := [], errorReplyToSender := false }
  | some payload =>
    { sends := (clients.filter (fun c => c.1 != clientId && c.2)).map (fun c => (c.1, data)),
      journalWrites := updateLogEntryV3 clientId payload,
      errorReplyToSender := false }

/-- Embedding of the `ws.on("message")` handler (third revision, lines
530-538): an unparseable frame (`frame = none`, `JSON.parse` threw) is
caught and answered with an error reply to the sender only. -/
def handleWsMessage (clientId : String) (frame : Option Json)
    (clients : List (String × Bool)) : HandlerResult :=
  match frame with
  | none => { sends := [], journalWrites := [], errorReplyToSender := true }
  | some data => processWebSocketMessage clientId data clients

/-- Whether `clientId` resolves to a currently-connected OPEN client
(`clients.get(clientId)` followed by the `readyState === OPEN` check). -/
def lookupOpen (cid : String) (clients : List (String × Bool)) : Bool :=
  match clients.find? (fun c => c.1 == cid) with
  | some c => c.2
  | none => false

/-- HTTP response of the routing endpoint: status code, body text, and the
session the envelope was delivered to, if any. -/
structure ApiResponse where
  status : Nat
  body : String
  deliveredTo : Option String
deriving Repr, DecidableEq

/-- Embedding of `app.post("/api/send-message")` (third revision, lines
626-648). JS truthiness: a missing OR empty `message`/`clientId` fails the
`if (!...)` guard with a 400; a `clientId` that does not resolve to a
connected OPEN client yields a 404 and no delivery. -/
def apiSendMessage (message clientId : Option String)
    (clients : List (String × Bool)) : ApiResponse :=
  match message with
  | none => ⟨400, "Message is required", none⟩
  | some m =>
    if m = "" then ⟨400, "Message is required", none⟩
    else
      match clientId with
      | none => ⟨400, "Client ID is required", none⟩
      | some cid =>
        if cid = "" then ⟨400, "Client ID is required", none⟩
        else if lookupOpen cid clients then ⟨200, "success", some cid⟩
        else ⟨404, "Client not found or not connected", none⟩

/- ===================================================================
   Journal, first revision (src/src/server.ts lines 102-146)
   =================================================================== -/

/-- Rendering of a generation state (`payload.state`). -/
def GenState.toStr : GenState → String
  | GenState.generating => "generating"
  | GenState.finished => "finished"

/-- A payload of the first revision's schema: `claude_state`, `message`
(with optional `messageId` and `isUser`), or `send_message`. -/
inductive PayloadV1
  | claudeState (state : GenState) (messageId : String) (timestamp : String) (url : String)
  | message (content : String) (messageId : Option String) (isUser : Option Bool)
      (timestamp : String) (url : String)
  | sendMessage (content : String)
deriving Repr, DecidableEq

/-- Embedding of `formatLogEntry` (first revision, lines 102-119):
`header = timestamp + "\n" + "From: " + url + "\n"`, then a type-specific
content line, then a final newline. For `send_message` the source reads
`payload.timestamp`/`payload.url`, fields that type does not have, so the
JS template interpolates `undefined`. Note that NO `MessageID:` marker is
ever written. -/
def formatLogEntry : PayloadV1 → String
  | PayloadV1.claudeState st _ ts url =>
      ts ++ "\n" ++ "From: " ++ url ++ "\n" ++ "Claude state: " ++ st.toStr ++ "\n" ++ "\n"
  | PayloadV1.message c _ isUser ts url =>
      ts ++ "\n" ++ "From: " ++ url ++ "\n" ++
        (if isUser = some true then "User" else "Claude") ++ ": " ++ c ++ "\n" ++ "\n"
  | PayloadV1.sendMessage c =>
      "undefined" ++ "\n" ++ "From: " ++ "undefined" ++ "\n" ++
        "Sending to Claude: " ++ c ++ "\n" ++ "\n"

/-- The `(payload as any).messageId` access in `updateLogEntry`. -/
def payloadMessageId : PayloadV1 → Option String
  | PayloadV1.claudeState _ mid _ _ => some mid
  | PayloadV1.message _ mid _ _ _ => mid
  | PayloadV1.sendMessage _ => none

/-- Embedding of `updateLogEntry` (first revision, lines 121-146). The
journal file is `none` when it cannot be read (e.g. it does not exist yet);
the `catch` then logs and returns with NO write. Otherwise the file is
split into entries on blank lines; with a truthy `messageId` the first
entry containing the marker `"MessageID: " ++ messageId` is replaced in
place, else the formatted entry is appended; the entries are rejoined and
written back. -/
def updateLogEntry (payload : PayloadV1) (logFile : Option String) : Option String :=
  match logFile with
  | none => none
  | some logContent =>
    let entries := jsSplit logContent "\n\n"
    let newEntries :=
      match payloadMessageId payload with
      | some mid =>
        if mid = "" then entries ++ [formatLogEntry payload]
        else
          match entries.findIdx? (fun e => strIncludes e ("MessageID: " ++ mid)) with
          | some i => entries.set i (formatLogEntry payload)
          | none => entries ++ [formatLogEntry payload]
      | none => entries ++ [formatLogEntry payload]
    some (String.intercalate "\n\n" newEntries)

/-- Number of occurrences of a non-empty pattern in a string. -/
def countOccurrences (s pat : String) : Nat := (jsSplit s pat).length - 1

/- ===================================================================
   Session registry (src/src/server.ts lines 522-544, third revision)
   =================================================================== -/

/-- JS `Map.set`: replace the binding of an existing key in place
(insertion order preserved), else append the new binding. Connections are
distinguished by opaque `Nat` tokens. -/
def clientsSet (key : String) (conn : Nat) : List (String × Nat) → List (String × Nat)
  | [] => [(key, conn)]
  | kv :: rest => if kv.1 == key then (key, conn) :: rest else kv :: clientsSet key conn rest

/-- JS `Map.delete` on the clients map (the `ws.on("close")` handler). -/
def clientsDelete (key : String) (m : List (String × Nat)) : List (String × Nat) :=
  m.filter (fun kv => kv.1 != key)

/-- JS `Map.get` on the clients map. -/
def clientsGet (key : String) (m : List (String × Nat)) : Option Nat :=
  (m.find? (fun kv => kv.1 == key)).map (fun kv => kv.2)

/-- Embedding of `wss.on("connection")` (lines 525-528): the session
identifier is `req.headers["sec-websocket-key"]` — a CLIENT-SUPPLIED
header, not an identifier minted by the registry — and the connection is
stored under it with `clients.set`. -/
def wssOnConnection (secWebSocketKey : String) (conn : Nat)
    (m : List (String × Nat)) : List (String × Nat) :=
  clientsSet secWebSocketKey conn m

/-- Embedding of `ws.on("close")` (lines 540-543). -/
def wsOnClose (secWebSocketKey : String) (m : List (String × Nat)) : List (String × Nat) :=
  clientsDelete secWebSocketKey m

/- ===================================================================
   Dictation segmentation
   (CluadescribeCli/main.swift, `processCurrentTranscriptionSection`,
   lines 329-363, second revision)
   =================================================================== -/

/-- State of the Swift `SpeechRecognizer` relevant to segmentation. -/
structure CliState where
  currentTranscription : String
  lastCompletedSection : String
  completedSectionCount : Nat
deriving Repr, DecidableEq

/-- Initial recognizer state: all fields empty. -/
def initCli : CliState := ⟨"", "", 0⟩

/-- Messages written to the WebSocket by the recognizer:
`setInputInClaude` sends `set_input`, `submitInputToClaude` sends
`submit_input`; `sendTranscriptionToClaude t` is the pair
`[setInput t, submitInput]`. -/
inductive OutMsg
  | setInput (content : String)
  | submitInput
deriving Repr, DecidableEq

/-- Swift `fullTranscription.range(of: pat)` followed by
`String(fullTranscription[range.upperBound...])`: the suffix after the
FIRST occurrence of `pat`, or `none` when `pat` does not occur. -/
def suffixAfterFirst (s pat : String) : Option String :=
  let parts := jsSplit s pat
  if parts.length == 1 then none
  else some (String.intercalate pat (parts.drop 1))

/-- Embedding of `processCurrentTranscriptionSection` (main.swift lines
329-363). Faithful to the source: the trigger keyword is DETECTED
case-insensitively (`lowercased().contains("jinx")`) but the input is
SPLIT case-sensitively (`components(separatedBy: "jinx")`). Swift's
inclusive slice `sections[0...completedSectionCount]` is `List.take
(count + 1)` (the source traps when the index exceeds the section count;
on the verified inputs it does not). Returns the new state and the
messages sent. -/
def processCurrentTranscriptionSection (st : CliState) (fullTranscription : String) :
    CliState × List OutMsg :=
  let sectOpt :=
    if st.lastCompletedSection = "" then some fullTranscription
    else suffixAfterFirst fullTranscription st.lastCompletedSection
  match sectOpt with
  | none => (st, [])
  | some currentSection =>
    if strIncludes (jsToLower currentSection) "jinx" then
      let components := jsSplit currentSection "jinx"
      let completedSection := swiftTrim (components.headD "")
      if completedSection = "" then (st, [])
      else
        ({ currentTranscription := swiftTrim (String.intercalate "jinx" (components.drop 1)),
           lastCompletedSection :=
             String.intercalate "jinx"
               ((jsSplit fullTranscription "jinx").take (st.completedSectionCount + 1)) ++ "jinx",
           completedSectionCount := st.completedSectionCount + 1 },
         [OutMsg.setInput completedSection, OutMsg.submitInput])
    else
      let ct := swiftTrim currentSection
      ({ st with currentTranscription := ct }, [OutMsg.setInput ct])

/- ===================================================================
   Helper lemmas: diff/reconciliation engine
   =================================================================== -/

theorem wbRun_append : ∀ (xs : List Event) (a : Option Nat) (ys : List Event),
    wbRun a (xs ++ ys) = (wbRun a xs).bind (fun b => wbRun b ys)
  | [], a, _ => by cases a <;> rfl
  | Event.contentPart _ _ :: xs, a, ys => by
    cases a <;> (simp only [List.cons_append, wbRun]; exact wbRun_append xs _ ys)
  | Event.stateChange st mid :: xs, a, ys => by
    cases st <;> cases a <;> cases mid <;>
      simp only [List.cons_append, wbRun, Option.none_bind] <;>
      first
        | exact wbRun_append xs _ ys
        | (split <;> first
            | exact wbRun_append xs _ ys
            | rfl)

theorem lastContent_stateStep (s : EngineState) (n : Notif) :
    (stateStep s n).1.lastContent = s.lastContent := by
  unfold stateStep
  split
  · rfl
  · split <;> rfl

theorem currentMessageId_contentStep (s : EngineState) (c : String) :
    (contentStep s c).1.currentMessageId = s.currentMessageId := by
  unfold contentStep
  split <;> rfl

theorem wbRun_contentStep (a : Option Nat) (s : EngineState) (c : String) :
    wbRun a (contentStep s c).2 = some a := by
  unfold contentStep
  split <;> cases a <;> rfl

theorem wbRun_stateStep (s : EngineState) (n : Notif) :
    wbRun s.currentMessageId (stateStep s n).2 = some (stateStep s n).1.currentMessageId := by
  unfold stateStep
  cases hc : s.currentMessageId <;> cases hs : n.isStreaming <;>
    simp [hc, hs, wbRun]

theorem wbRun_engineStep (s : EngineState) (n : Notif) :
    wbRun s.currentMessageId (engineStep s n).2 = some (engineStep s n).1.currentMessageId := by
  show wbRun s.currentMessageId
      ((stateStep s n).2 ++ (contentStep (stateStep s n).1 n.content).2) =
    some (contentStep (stateStep s n).1 n.content).1.currentMessageId
  rw [wbRun_append, wbRun_stateStep, Option.some_bind, currentMessageId_contentStep]
  exact wbRun_contentStep _ _ _

theorem wbRun_engineRun : ∀ (ns : List Notif) (s : EngineState),
    wbRun s.currentMessageId (engineRun s ns).2 = some (engineRun s ns).1.currentMessageId
  | [], s => by cases hc : s.currentMessageId <;> simp [engineRun, wbRun, hc]
  | n :: rest, s => by
    simp only [engineRun]
    rw [wbRun_append, wbRun_engineStep, Option.some_bind]
    exact wbRun_engineRun rest (engineStep s n).1

theorem contentPayloads_append : ∀ (xs ys : List Event),
    contentPayloads (xs ++ ys) = contentPayloads xs ++ contentPayloads ys
  | [], _ => rfl
  | Event.stateChange _ _ :: xs, ys => by
    simp only [List.cons_append, contentPayloads]
    exact contentPayloads_append xs ys
  | Event.contentPart _ _ :: xs, ys => by
    simp only [List.cons_append, contentPayloads, List.cons.injEq, true_and]
    exact contentPayloads_append xs ys

theorem contentPayloads_stateStep (s : EngineState) (n : Notif) :
    contentPayloads (stateStep s n).2 = [] := by
  unfold stateStep
  split
  · rfl
  · split <;> rfl

theorem contentPayloads_contentStep (s : EngineState) (c : String) :
    contentPayloads (contentStep s c).2 = if c = s.lastContent then [] else [c] := by
  unfold contentStep
  split <;> rename_i h
  · rw [if_neg (bne_iff_ne.mp h)]
    rfl
  · simp only [bne_iff_ne, ne_eq, Decidable.not_not] at h
    rw [if_pos h]
    rfl

theorem contentPayloads_engineStep (s : EngineState) (n : Notif) :
    contentPayloads (engineStep s n).2 =
      if n.content = s.lastContent then [] else [n.content] := by
  show contentPayloads
      ((stateStep s n).2 ++ (contentStep (stateStep s n).1 n.content).2) = _
  rw [contentPayloads_append, contentPayloads_stateStep, List.nil_append,
    contentPayloads_contentStep, lastContent_stateStep]

theorem lastContent_engineStep (s : EngineState) (n : Notif) :
    (engineStep s n).1.lastContent = n.content := by
  show (contentStep (stateStep s n).1 n.content).1.lastContent = n.content
  unfold contentStep
  split <;> rename_i h
  · rfl
  · simp only [bne_iff_ne, ne_eq, Decidable.not_not] at h
    exact h.symm

theorem lastContent_engineRun : ∀ (ns : List Notif) (s : EngineState),
    (engineRun s ns).1.lastContent = (ns.map Notif.content).getLastD s.lastContent
  | [], _ => rfl
  | n :: rest, s => by
    simp only [engineRun, List.map_cons, List.getLastD_cons]
    rw [lastContent_engineRun rest (engineStep s n).1, lastContent_engineStep]

theorem payloads_getLastD_engineRun : ∀ (ns : List Notif) (s : EngineState),
    (contentPayloads (engineRun s ns).2).getLastD s.lastContent = (engineRun s ns).1.lastContent
  | [], _ => rfl
  | n :: rest, s => by
    have hl := lastContent_engineStep s n
    have ih := payloads_getLastD_engineRun rest (engineStep s n).1
    simp only [engineRun, contentPayloads_append, contentPayloads_engineStep]
    by_cases h : n.content = s.lastContent
    · simp only [h, if_true, List.nil_append]
      rw [← h, ← hl]
      exact ih
    · simp only [h, if_false, List.singleton_append, List.getLastD_cons]
      rw [← hl]
      exact ih

theorem chainOk_engineRun : ∀ (ns : List Notif) (s : EngineState),
    chainOk s.lastContent (contentPayloads (engineRun s ns).2) = true
  | [], _ => rfl
  | n :: rest, s => by
    have hl := lastContent_engineStep s n
    have ih := chainOk_engineRun rest (engineStep s n).1
    simp only [engineRun, contentPayloads_append, contentPayloads_engineStep]
    by_cases h : n.content = s.lastContent
    · simp only [h, if_true, List.nil_append]
      rw [← h, ← hl]
      exact ih
    · simp only [h, if_false, List.singleton_append, chainOk, Bool.and_eq_true, bne_iff_ne]
      refine ⟨h, ?_⟩
      rw [← hl]
      exact ih

theorem chainOk_adjacentDistinct : ∀ (l : List String) (c : String),
    chainOk c l = true → adjacentDistinct l = true
  | [], _, _ => rfl
  | [_], _, _ => rfl
  | x :: y :: t, c, h => by
    simp only [chainOk, Bool.and_eq_true, bne_iff_ne] at h
    simp only [adjacentDistinct, Bool.and_eq_true, bne_iff_ne]
    exact ⟨Ne.symm h.2.1, chainOk_adjacentDistinct (y :: t) x
      (by simp only [chainOk, Bool.and_eq_true, bne_iff_ne]; exact h.2)⟩

/- ===================================================================
   Claims C1, C4, C8
   =================================================================== -/

/-- C1 (corrected): on the source, each emitted content event carries the
ENTIRE cumulative content of its raw notification, never just the
newly-appeared suffix; consequently it is the LAST emitted content payload
(not the concatenation of all of them) that equals the final cumulative
content (monitoring starts with `lastContent = ""`). -/
theorem c1_full_content_emission :
    (∀ (s : EngineState) (n : Notif),
      contentPayloads (engineStep s n).2 = [] ∨
        contentPayloads (engineStep s n).2 = [n.content]) ∧
    (∀ ns : List Notif,
      (contentPayloads (engineRun initE ns).2).getLastD "" =
        (ns.map Notif.content).getLastD "") := by
  constructor
  · intro s n
    rw [contentPayloads_engineStep]
    split
    · exact Or.inl rfl
    · exact Or.inr rfl
  · intro ns
    have h1 := payloads_getLastD_engineRun ns initE
    have h2 := lastContent_engineRun ns initE
    have he : initE.lastContent = "" := rfl
    rw [he] at h1 h2
    rw [h1, h2]

/-- C1 counterexample: for the monotonically-growing notification sequence
"Hello", "Hello world" (the first cumulative content is a prefix of the
second: "Hello" ++ " world" = "Hello world") the engine emits the payloads
"Hello" and "Hello world" — each the full cumulative content — whose
concatenation "HelloHello world" differs from the final cumulative content
"Hello world" minus the empty pre-monitoring portion. -/
theorem c1_counterexample :
    ("Hello" ++ " world" = "Hello world") ∧
    contentPayloads (engineRun initE [⟨"Hello", true⟩, ⟨"Hello world", true⟩]).2 =
      ["Hello", "Hello world"] ∧
    String.join (contentPayloads (engineRun initE [⟨"Hello", true⟩, ⟨"Hello world", true⟩]).2) ≠
      "Hello world" := by
  refine ⟨rfl, rfl, ?_⟩
  decide

/-- C4 (confirmed): every event stream the engine produces from its initial
state is well-bracketed — a `generating` event occurs only when no
correlation id is active and activates a freshly minted id, the matching
`finished` event carries exactly that id and clears it — and the spec's
three-notification scenario yields exactly four events, all tagged with
the single correlation id minted at the generation start. -/
theorem c4_generation_correlation :
    (∀ ns : List Notif, (wbRun none (engineRun initE ns).2).isSome = true) ∧
    (engineRun initE [⟨"Hello", true⟩, ⟨"Hello world", true⟩, ⟨"Hello world", false⟩]).2 =
      [Event.stateChange GenState.generating (some 0),
       Event.contentPart "Hello" (some 0),
       Event.contentPart "Hello world" (some 0),
       Event.stateChange GenState.finished (some 0)] := by
  constructor
  · intro ns
    have h := wbRun_engineRun ns initE
    have he : initE.currentMessageId = none := rfl
    rw [he] at h
    rw [h]
    rfl
  · rfl

/-- C8 (amended): no two consecutive emitted content events — anywhere in
the stream, hence in particular for the same correlation id — carry
identical payloads, and a raw notification whose content equals the last
emitted content produces no CONTENT envelope (a state-change envelope may
still be emitted on a producing-flag transition). -/
theorem c8_duplicate_suppression :
    (∀ ns : List Notif,
      adjacentDistinct (contentPayloads (engineRun initE ns).2) = true) ∧
    (∀ (s : EngineState) (n : Notif), n.content = s.lastContent →
      contentPayloads (engineStep s n).2 = []) := by
  constructor
  · intro ns
    exact chainOk_adjacentDistinct _ _ (chainOk_engineRun ns initE)
  · intro s n h
    rw [contentPayloads_engineStep, if_pos h]

/-- C8 witness: a duplicate notification (content equal to the last
emitted content, here both empty) produces no content envelope. -/
theorem c8_witness :
    contentPayloads (engineStep initE ⟨"", true⟩).2 = [] :=
  c8_duplicate_suppression.2 initE ⟨"", true⟩ rfl

/-- C8 counterexample: after the notification ("Hello", producing) the last
emitted content is "Hello", yet the raw notification ("Hello", finished)
— whose content is identical to the last emitted content — still produces
an envelope, namely the `finished` state change. -/
theorem c8_counterexample :
    ((engineRun initE [⟨"Hello", true⟩]).1.lastContent = "Hello") ∧
    (engineStep (engineRun initE [⟨"Hello", true⟩]).1 ⟨"Hello", false⟩).2 =
      [Event.stateChange GenState.finished (some 0)] := ⟨rfl, rfl⟩

/- ===================================================================
   Claims C5, C6, C7 (relay server)
   =================================================================== -/

/-- C5 (confirmed): for any registry of connected sessions, a validated
envelope received from a sender is pushed to every OTHER open session and
never to the sender itself (the `id !== clientId && readyState === OPEN`
guard of the broadcast loop). -/
theorem c5_broadcast_excluding_sender :
    ∀ (clients : List (String × Bool)) (clientId : String) (data : Json) (p : PayloadV3),
      validatePayload data = some p →
        ((processWebSocketMessage clientId data clients).sends.all
            (fun pr => pr.1 != clientId) = true) ∧
        (∀ sid : String, (sid, true) ∈ clients → sid ≠ clientId →
          (sid, data) ∈ (processWebSocketMessage clientId data clients).sends) := by
  intro clients clientId data p hv
  unfold processWebSocketMessage
  rw [hv]
  constructor
  · simp only [List.all_eq_true, List.mem_map, List.mem_filter]
    rintro pr ⟨c, ⟨_, hpred⟩, rfl⟩
    simp only [Bool.and_eq_true] at hpred
    exact hpred.1
  · intro sid hmem hne
    refine List.mem_map.mpr ⟨(sid, true), List.mem_filter.mpr ⟨hmem, ?_⟩, rfl⟩
    simp [hne]

/-- C5 witness: with the three connected sessions A, B, C all open, a valid
envelope from A is delivered to B and to C and to no pair whose first
component is A. -/
theorem c5_witness :
    ("B", Json.obj [("type", Json.str "CLAUDE.SEND_USER_MESSAGE"), ("content", Json.str "hi")]) ∈
      (processWebSocketMessage "A"
        (Json.obj [("type", Json.str "CLAUDE.SEND_USER_MESSAGE"), ("content", Json.str "hi")])
        [("A", true), ("B", true), ("C", true)]).sends ∧
    ("C", Json.obj [("type", Json.str "CLAUDE.SEND_USER_MESSAGE"), ("content", Json.str "hi")]) ∈
      (processWebSocketMessage "A"
        (Json.obj [("type", Json.str "CLAUDE.SEND_USER_MESSAGE"), ("content", Json.str "hi")])
        [("A", true), ("B", true), ("C", true)]).sends ∧
    (processWebSocketMessage "A"
        (Json.obj [("type", Json.str "CLAUDE.SEND_USER_MESSAGE"), ("content", Json.str "hi")])
        [("A", true), ("B", true), ("C", true)]).sends.all (fun pr => pr.1 != "A") = true := by
  have h := c5_broadcast_excluding_sender [("A", true), ("B", true), ("C", true)] "A"
    (Json.obj [("type", Json.str "CLAUDE.SEND_USER_MESSAGE"), ("content", Json.str "hi")])
    (PayloadV3.sendUserMessage "hi") rfl
  exact ⟨h.2 "B" (by simp) (by decide), h.2 "C" (by simp) (by decide), h.1⟩

/-- C6 (amended): a unicast whose target is ABSENT is rejected with a
400 bad-request response (not a not-found response), and a unicast whose
target does not resolve to a currently-connected open session is rejected
with a 404 not-found response; in both cases no envelope is delivered to
any session, and the handler returns normally. -/
theorem c6_unicast_failure :
    ∀ (clients : List (String × Bool)) (m cid : String),
      m ≠ "" → cid ≠ "" → lookupOpen cid clients = false →
        ((apiSendMessage (some m) none clients).status = 400 ∧
          (apiSendMessage (some m) none clients).deliveredTo = none) ∧
        ((apiSendMessage (some m) (some cid) clients).status = 404 ∧
          (apiSendMessage (some m) (some cid) clients).deliveredTo = none) := by
  intro clients m cid hm hcid hlook
  simp [apiSendMessage, hm, hcid, hlook]

/-- C6 witness: with only the closed session B registered, the request with
an absent target gets status 400 with no delivery, and the request
targeting the unknown session X gets status 404 with no delivery. -/
theorem c6_witness :
    (apiSendMessage (some "hi") none [("B", false)]).status = 400 ∧
    (apiSendMessage (some "hi") (some "X") [("B", false)]).status = 404 ∧
    (apiSendMessage (some "hi") (some "X") [("B", false)]).deliveredTo = none :=
  ⟨(c6_unicast_failure [("B", false)] "hi" "X" (by decide) (by decide) rfl).1.1,
   (c6_unicast_failure [("B", false)] "hi" "X" (by decide) (by decide) rfl).2.1,
   (c6_unicast_failure [("B", false)] "hi" "X" (by decide) (by decide) rfl).2.2⟩

/-- C6 counterexample: a request whose target session identifier is absent
yields status 400 ("Client ID is required"), not the not-found response
the claim states. -/
theorem c6_counterexample :
    apiSendMessage (some "hi") none [("B", true)] =
      ⟨400, "Client ID is required", none⟩ ∧
    (apiSendMessage (some "hi") none [("B", true)]).status ≠ 404 := by
  refine ⟨rfl, ?_⟩
  decide

/-- C7 (confirmed): a frame whose payload fails schema validation is caught
inside `processWebSocketMessage` (which returns normally), forwarded to no
session and journaled nowhere; a frame that is not even parseable JSON is
caught in the `ws.on("message")` handler, which only sends an error reply
back to the sender. -/
theorem c7_validation_failure_isolated :
    (∀ (clientId : String) (data : Json) (clients : List (String × Bool)),
      validatePayload data = none →
        (processWebSocketMessage clientId data clients).sends = [] ∧
        (processWebSocketMessage clientId data clients).journalWrites = []) ∧
    (∀ (clientId : String) (clients : List (String × Bool)),
      (handleWsMessage clientId none clients).sends = [] ∧
      (handleWsMessage clientId none clients).journalWrites = [] ∧
      (handleWsMessage clientId none clients).errorReplyToSender = true) := by
  constructor
  · intro clientId data clients hv
    unfold processWebSocketMessage
    rw [hv]
    exact ⟨rfl, rfl⟩
  · intro clientId clients
    exact ⟨rfl, rfl, rfl⟩

/-- C7 witness: the frame `{"type": "bogus"}` fails validation and is
neither forwarded to the open session B nor journaled. -/
theorem c7_witness :
    (processWebSocketMessage "A" (Json.obj [("type", Json.str "bogus")]) [("B", true)]).sends = [] ∧
    (processWebSocketMessage "A" (Json.obj [("type", Json.str "bogus")]) [("B", true)]).journalWrites = [] :=
  c7_validation_failure_isolated.1 "A" (Json.obj [("type", Json.str "bogus")]) [("B", true)] rfl

/- ===================================================================
   Claims C2, C10 (journal)
   =================================================================== -/

/-- C2 (code bug): `updateLogEntry` looks entries up by the embedded marker
`"MessageID: <id>"`, but `formatLogEntry` never writes that marker, so the
lookup never matches and every upsert APPENDS. Starting from an existing
(empty) journal file, two upserts carrying the same `messageId` "m1" leave
TWO `claude_state` entries — the second call did not replace the first. -/
theorem c2_upsert_appends_duplicate :
    strIncludes
        (formatLogEntry (PayloadV1.claudeState GenState.generating "m1" "t1" "http://x"))
        "MessageID: m1" = false ∧
    (updateLogEntry (PayloadV1.claudeState GenState.finished "m1" "t2" "http://x")
        (updateLogEntry (PayloadV1.claudeState GenState.generating "m1" "t1" "http://x")
          (some ""))).map (fun s => countOccurrences s "Claude state:") = some 2 :=
  ⟨rfl, rfl⟩

/-- C10 (confirmed): when reading the journal file fails (`logFile = none`,
e.g. the file does not exist on the very first write), `updateLogEntry`
catches the error, performs no write, and returns normally with the
journal unchanged, for every payload. -/
theorem c10_read_failure_no_write :
    ∀ p : PayloadV1, updateLogEntry p none = none :=
  fun _ => rfl

/- ===================================================================
   Claim C9 (session registry)
   =================================================================== -/

theorem clientsGet_clientsSet (key : String) (c : Nat) :
    ∀ m : List (String × Nat), clientsGet key (clientsSet key c m) = some c
  | [] => by simp [clientsSet, clientsGet]
  | kv :: rest => by
    unfold clientsSet
    split <;> rename_i h
    · simp [clientsGet, List.find?]
    · have ih := clientsGet_clientsSet key c rest
      simp only [clientsGet, List.find?, h] at ih ⊢
      exact ih

/-- C9 (amended): the session identifier is the client-supplied
sec-websocket-key header, stored verbatim by the registry; the registry
does nothing to prevent reuse — after a connection registered under `key`
closes, ANY later connection presenting the same `key` is stored under the
identical identifier, so routing by that identifier reaches the new,
unrelated connection. -/
theorem c9_identifier_reuse :
    ∀ (key : String) (conn₁ conn₂ : Nat) (m : List (String × Nat)),
      clientsGet key (wssOnConnection key conn₁ m) = some conn₁ ∧
      clientsGet key (wssOnConnection key conn₂ (wsOnClose key (wssOnConnection key conn₁ m))) =
        some conn₂ :=
  fun key conn₁ conn₂ m =>
    ⟨clientsGet_clientsSet key conn₁ m, clientsGet_clientsSet key conn₂ _⟩

/-- C9 counterexample: connection 1 registers with sec-websocket-key "k"
and is routable as "k"; after it unregisters, connection 2 registers with
the same header value and the identifier "k" — the identifier of a closed
session — now routes to the distinct, unrelated connection 2. -/
theorem c9_counterexample :
    clientsGet "k" (wssOnConnection "k" 1 []) = some 1 ∧
    clientsGet "k" (wssOnConnection "k" 2 (wsOnClose "k" (wssOnConnection "k" 1 []))) = some 2 ∧
    (1 : Nat) ≠ 2 :=
  ⟨rfl, rfl, by decide⟩

/- ===================================================================
   Claim C3 (dictation segmentation)
   =================================================================== -/

/-- C3 (code bug): the trigger keyword is detected case-insensitively but
the input is split case-sensitively. On the spec's scenario input
"book a flight JINX tomorrow" the case-insensitive guard fires, yet the
case-sensitive split finds no occurrence of "jinx", so the ENTIRE input —
trigger keyword included — is submitted as the completed segment and
nothing is retained. On the all-lowercase variant the code behaves exactly
as the claim describes ("book a flight" submitted, "tomorrow" retained),
confirming that the split is the slip. -/
theorem c3_keyword_case_mismatch :
    processCurrentTranscriptionSection initCli "book a flight JINX tomorrow" =
      (⟨"", "book a flight JINX tomorrowjinx", 1⟩,
       [OutMsg.setInput "book a flight JINX tomorrow", OutMsg.submitInput]) ∧
    processCurrentTranscriptionSection initCli "book a flight jinx tomorrow" =
      (⟨"tomorrow", "book a flight jinx", 1⟩,
       [OutMsg.setInput "book a flight", OutMsg.submitInput]) :=
  ⟨rfl, rfl⟩

end RemoteControl
